import Mathlib

/-!
# Shallow embedding of `post_reels.py`

This file models the due-item publishing cycle of `post_reels.py`:
the due-window selector `is_due`, media-URL resolution, caption
building, the transport-level retry loop `http_request`, the publisher
`post_one`, and the cycle runner `process_due_items`.

Modelling conventions:
* Timezone-aware datetimes (`datetime.fromisoformat` on a string with
  an offset) are modelled as `AwareTime`: the instant as rational
  seconds since the epoch together with the carried UTC offset.
  `astimezone(timezone.utc)` preserves the instant, so it projects out
  the instant. `datetime.now(timezone.utc)` is passed in explicitly as
  a rational `now_utc`; the float time arithmetic of Python is modelled by
  exact rational arithmetic.
* Python `dict.get` on optional string fields is `Option String`;
  `none` is an absent key, `some ""` is a present-but-empty value.
  Python truthiness of such a value is `pyTruthyStr`.
* The requests transport is an oracle `ℕ → AttemptResult` giving the
  result of each attempt; `time.sleep` calls are recorded as a list of
  sleep durations.
* The three Graph API helpers (`create_media_container`,
  `wait_until_processed`, `publish_media`) are modelled against an
  abstract `RemoteApi` oracle; every remote interaction is recorded in
  a `RemoteCall` trace so that "no remote call is made" is statable.
* `now_utc_iso()` is passed in as one string `now_iso` for the whole
  cycle (the real code takes fresh timestamps that differ by
  microseconds; no claim depends on that).
* Raised exceptions are `Except.error` carrying the stringified
  message; `process_due_items` catches per-record exceptions exactly
  where the Python `try/except Exception` does.
-/

/-- A timezone-aware datetime: the instant it denotes, in seconds since
the epoch (exact rationals model the Python arithmetic on
`total_seconds()`), plus the UTC offset its `tzinfo` carries. -/
structure AwareTime where
  utcSeconds : ℚ
  offsetMinutes : ℤ
deriving DecidableEq, Repr

/-- Model of `dt.astimezone(timezone.utc)`: converting an aware datetime to UTC
preserves the instant it denotes. -/
def astimezone_utc (t : AwareTime) : ℚ := t.utcSeconds

/-- Model of `is_due(iso_str, window_minutes)` from `post_reels.py`:
`delta_min = (now_utc - dt_utc).total_seconds() / 60.0`, due iff
`delta_min >= 0 and delta_min < window_minutes`. The current UTC time
is passed in explicitly. -/
def is_due (now_utc : ℚ) (t : AwareTime) (window_minutes : ℤ) : Bool :=
  let dt_utc := astimezone_utc t
  let delta_min : ℚ := (now_utc - dt_utc) / 60
  decide (delta_min ≥ 0) && decide (delta_min < (window_minutes : ℚ))

/-- Python truthiness of an optional string field read with
`rec.get(...)`: falsy when the key is absent or the value is `""`. -/
def pyTruthyStr : Option String → Bool
  | none => false
  | some s => !(s == "")

/-- Python `s[:n]` on a string: the first `n` characters. -/
def pySlice (s : String) (n : ℕ) : String := String.mk (s.data.take n)

/-- Python `s.strip()`: remove leading and trailing whitespace. -/
def pyStrip (s : String) : String :=
  String.mk
    (((s.data.dropWhile Char.isWhitespace).reverse.dropWhile
        Char.isWhitespace).reverse)

/-- Python `s.rstrip("/")`: remove every trailing `'/'`. -/
def rstripSlashes (s : String) : String :=
  String.mk ((s.data.reverse.dropWhile (fun c => c = '/')).reverse)

/-- Model of `urllib.parse.urljoin` at the one call site in
`resolve_video_url`: the base is an absolute URL forced to end in
`"/"` and the reference is the relative path
`reels/<id>/reel.mp4`, so resolution is concatenation. -/
def urljoin (base rel : String) : String := base ++ rel

/-- The value `post_one` returns: the dry-run preview dict
(`dry_run`, `video_url`, `caption_preview`, optional `also_story`
flag), or the published-media dict (`creation_id`, `media_id`,
`video_url`, optional `story_media_id`). -/
inductive PostResult where
  | dry (video_url : String) (caption_preview : String) (also_story : Bool)
  | posted (creation_id media_id video_url : String)
      (story_media_id : Option String)
deriving DecidableEq, Repr

/-- One record of `reels/schedule.json`. Fields the code reads or
writes; `Option` distinguishes an absent key from a present value. -/
structure Rec where
  id : String
  post_at_iso : Option AwareTime
  public_video_url : Option String
  post_caption_main : Option String
  post_caption_hashtags : Option String
  published_at_iso : Option String
  publish_attempted_at_iso : Option String
  publish_error : Option String
  dry_run_info : Option PostResult
  ig_creation_id : Option String
  ig_media_id : Option String
deriving DecidableEq, Repr

/-- The message of the `RuntimeError` raised by `resolve_video_url`
when neither an explicit URL nor a base URL is available. -/
def no_url_error : String :=
  "No public_video_url. Set PUBLIC_BASE_URL or ensure schedule record has public_video_url."

/-- Model of `resolve_video_url(rec, public_base_url)`: prefer a truthy
`public_video_url`; otherwise, with a truthy base URL, derive
`urljoin(base.rstrip("/") + "/", "reels/<id>/reel.mp4")`; otherwise
raise. -/
def resolve_video_url (rec : Rec) (public_base_url : Option String) :
    Except String String :=
  if pyTruthyStr rec.public_video_url then
    .ok (rec.public_video_url.getD "")
  else if pyTruthyStr public_base_url then
    .ok (urljoin (rstripSlashes (public_base_url.getD "") ++ "/")
          ("reels/" ++ rec.id ++ "/reel.mp4"))
  else
    .error no_url_error

/-- Model of `build_caption(rec)`: strip both caption fragments (absent keys
default to `""` via `or ""`), join with a blank line iff the stripped
hashtag text is non-empty. -/
def build_caption (rec : Rec) : String :=
  let main := pyStrip (rec.post_caption_main.getD "")
  let hashtags := pyStrip (rec.post_caption_hashtags.getD "")
  if hashtags ≠ "" then main ++ "\n\n" ++ hashtags else main

/-! ## Transport layer: `http_request` -/

/-- Outcome of one `requests.request` attempt: a raised
`requests.RequestException`, or a response with a status code, a flag
for whether `resp.json()` parses, and the body text. -/
inductive AttemptResult where
  | netError
  | response (status : ℕ) (bodyIsJson : Bool) (body : String)
deriving DecidableEq, Repr

/-- The statuses `http_request` retries: `(429, 500, 502, 503, 504)`. -/
def retryableStatus (s : ℕ) : Bool :=
  s == 429 || s == 500 || s == 502 || s == 503 || s == 504

/-- The diagnostic detail attached to a terminal HTTP error:
`resp.json()` when the body parses, else `resp.text[:300]`. -/
def respDetail (bodyIsJson : Bool) (body : String) : String :=
  if bodyIsJson then body else pySlice body 300

/-- How `http_request` ends: a parsed success body, a re-raised
network exception on the last attempt, a terminal
`HTTP <status> ... : <detail>` error, or `Failed after N retries`. -/
inductive HttpOutcome where
  | success (body : String)
  | raisedNetError
  | raisedHttpError (status : ℕ) (detail : String)
  | raisedExhausted
deriving DecidableEq, Repr

/-- A run of `http_request`: its outcome, the durations of its
`time.sleep` calls in order, and how many attempts were made. -/
structure HttpRun where
  outcome : HttpOutcome
  sleeps : List ℚ
  attempts : ℕ
deriving DecidableEq, Repr

/-- The `for attempt in range(retries)` loop of `http_request`, with
`fuel = retries - attempt` iterations left. On a network exception:
re-raise if this is the last attempt, else sleep `backoff * 2^attempt`
and continue. On a status in `ok`: success. On a retryable status:
sleep `backoff * 2^attempt` and continue (falling off the loop raises
the exhausted error). Any other status raises immediately with the
response detail. -/
def http_request_loop (oracle : ℕ → AttemptResult) (ok : List ℕ)
    (backoff : ℚ) : ℕ → ℕ → HttpRun
  | _, 0 => ⟨.raisedExhausted, [], 0⟩
  | attempt, fuel + 1 =>
    match oracle attempt with
    | .netError =>
      if fuel = 0 then ⟨.raisedNetError, [], 1⟩
      else
        let r := http_request_loop oracle ok backoff (attempt + 1) fuel
        ⟨r.outcome, backoff * 2 ^ attempt :: r.sleeps, r.attempts + 1⟩
    | .response s isJson body =>
      if s ∈ ok then ⟨.success body, [], 1⟩
      else if retryableStatus s then
        let r := http_request_loop oracle ok backoff (attempt + 1) fuel
        ⟨r.outcome, backoff * 2 ^ attempt :: r.sleeps, r.attempts + 1⟩
      else ⟨.raisedHttpError s (respDetail isJson body), [], 1⟩

/-- Model of `http_request(method, url, retries, backoff, ok)`: run the attempt
loop from attempt `0`. The Python defaults are `retries=5`,
`backoff=2.0`, `ok=(200,)`. -/
def http_request (oracle : ℕ → AttemptResult) (retries : ℕ)
    (backoff : ℚ) (ok : List ℕ) : HttpRun :=
  http_request_loop oracle ok backoff 0 retries

/-- An attempt result on which `http_request` sleeps and moves to the
next attempt (when one remains): a network exception or a non-`ok`
retryable status. -/
def retryFail (ok : List ℕ) : AttemptResult → Bool
  | .netError => true
  | .response s _ _ => !(decide (s ∈ ok)) && retryableStatus s

/-- Whether an `http_request` outcome is a terminal failure (anything
other than success). -/
def isTerminalFailure : HttpOutcome → Bool
  | .success _ => false
  | _ => true

/-! ## Graph API helpers and the publisher `post_one` -/

/-- The payload `create_media_container` sends to
`POST /{ig_user_id}/media`: `media_type` and `access_token` always;
`video_url` / `image_url` only when truthy; `caption` only when not
`None`; `share_to_feed` only for `REELS`. -/
structure CreatePayload where
  media_type : String
  access_token : String
  video_url : Option String
  image_url : Option String
  caption : Option String
  share_to_feed : Option Bool
deriving DecidableEq, Repr

/-- One remote Graph API interaction of the publisher: container
creation, a processing-status wait, or a publish call. -/
inductive RemoteCall where
  | create (p : CreatePayload)
  | wait (creation_id : String)
  | publish (creation_id : String)
deriving DecidableEq, Repr

/-- Oracle for the remote API: the result of each helper as a
function of its input. An `error` is the message of a raised exception
(remote rejection, processing `ERROR`, poll timeout, or a transport
failure from `http_request`). -/
structure RemoteApi where
  create : CreatePayload → Except String String
  waitProcessed : String → Except String Unit
  publishMedia : String → Except String String

/-- Model of `create_media_container(...)`: build the payload and call the API;
returns the creation id. The call is recorded in the trace. -/
def create_media_container (api : RemoteApi) (ig_user_id access_token : String)
    (media_type : String) (video_url image_url : Option String)
    (caption : Option String) (share_to_feed : Bool) :
    Except String String × List RemoteCall :=
  let _ := ig_user_id
  let p : CreatePayload :=
    { media_type := media_type
      access_token := access_token
      video_url := if pyTruthyStr video_url then video_url else none
      image_url := if pyTruthyStr image_url then image_url else none
      caption := caption
      share_to_feed :=
        if media_type = "REELS" then some share_to_feed else none }
  (api.create p, [.create p])

/-- Model of `wait_until_processed(creation_id, ...)`: poll until `FINISHED`,
raising on `ERROR` or timeout; the oracle decides the outcome and the
interaction is recorded in the trace. -/
def wait_until_processed (api : RemoteApi) (creation_id : String) :
    Except String Unit × List RemoteCall :=
  (api.waitProcessed creation_id, [.wait creation_id])

/-- Model of `publish_media(ig_user_id, access_token, creation_id)`: exchange
the creation id for the published media id. -/
def publish_media (api : RemoteApi) (ig_user_id access_token : String)
    (creation_id : String) : Except String String × List RemoteCall :=
  let _ := ig_user_id
  let _ := access_token
  (api.publishMedia creation_id, [.publish creation_id])

/-- Model of `post_story_from_url(...)`: create a `STORIES` container for the
same media, wait for processing, publish; returns
`(creation_id, media_id)`. -/
def post_story_from_url (api : RemoteApi) (ig_user_id access_token : String)
    (media_url : String) (is_video : Bool) (caption : String) :
    Except String (String × String) × List RemoteCall :=
  match create_media_container api ig_user_id access_token "STORIES"
      (if is_video then some media_url else none)
      (if is_video then none else some media_url)
      (some caption) true with
  | (.error e, c1) => (.error e, c1)
  | (.ok creation_id, c1) =>
    match wait_until_processed api creation_id with
    | (.error e, c2) => (.error e, c1 ++ c2)
    | (.ok _, c2) =>
      match publish_media api ig_user_id access_token creation_id with
      | (.error e, c3) => (.error e, c1 ++ c2 ++ c3)
      | (.ok media_id, c3) => (.ok (creation_id, media_id), c1 ++ c2 ++ c3)

/-- The caption preview of the dry-run payload:
`caption[:160] + ("..." if len(caption) > 160 else "")`. -/
def caption_preview (caption : String) : String :=
  pySlice caption 160 ++ (if caption.length > 160 then "..." else "")

/-- Model of `post_one(rec, ig_user_id, access_token, public_base_url,
dry_run, also_story)`: resolve the media URL, build the caption,
short-circuit in dry-run mode without any remote call, else create the
REELS container, wait, publish, and optionally repeat as a STORIES
post. -/
def post_one (api : RemoteApi) (rec : Rec) (ig_user_id access_token : String)
    (public_base_url : Option String) (dry_run also_story : Bool) :
    Except String PostResult × List RemoteCall :=
  match resolve_video_url rec public_base_url with
  | .error e => (.error e, [])
  | .ok video_url =>
    let caption := build_caption rec
    if dry_run then
      (.ok (.dry video_url (caption_preview caption) also_story), [])
    else
      match create_media_container api ig_user_id access_token "REELS"
          (some video_url) none (some caption) true with
      | (.error e, c1) => (.error e, c1)
      | (.ok creation_id, c1) =>
        match wait_until_processed api creation_id with
        | (.error e, c2) => (.error e, c1 ++ c2)
        | (.ok _, c2) =>
          match publish_media api ig_user_id access_token creation_id with
          | (.error e, c3) => (.error e, c1 ++ c2 ++ c3)
          | (.ok reel_media_id, c3) =>
            if also_story then
              match post_story_from_url api ig_user_id access_token
                  video_url true caption with
              | (.error e, c4) => (.error e, c1 ++ c2 ++ c3 ++ c4)
              | (.ok story, c4) =>
                (.ok (.posted creation_id reel_media_id video_url (some story.2)),
                 c1 ++ c2 ++ c3 ++ c4)
            else
              (.ok (.posted creation_id reel_media_id video_url none),
               c1 ++ c2 ++ c3)

/-! ## The cycle runner `process_due_items` -/

/-- The message of the `SystemExit` raised when either credential is
missing from the environment. -/
def missing_creds_error : String :=
  "Missing IG_ACCESS_TOKEN or IG_USER_ID in environment (load via .env or export)."

/-- The three environment variables the cycle reads with `os.getenv`. -/
structure Env where
  IG_ACCESS_TOKEN : Option String
  IG_USER_ID : Option String
  PUBLIC_BASE_URL : Option String
deriving DecidableEq, Repr

/-- The body of the `for rec in schedule` loop for one record: skip a
truthy `published_at_iso`, skip a falsy `post_at_iso`, skip a record
that is not due; otherwise run `post_one` under `try/except`. On an
exception, stamp `publish_error` and `publish_attempted_at_iso`. On
success, stamp `publish_attempted_at_iso` and either `dry_run_info`
(dry run) or `published_at_iso`, `ig_creation_id`, `ig_media_id` and
`setdefault` of `public_video_url`. Returns the record, whether
`changed` was set, and the remote calls made. The `.dry` case in the
non-dry branch is unreachable (`post_one` with `dry_run = False` never
returns the preview dict). -/
def step_record (api : RemoteApi) (env : Env) (now_utc : ℚ) (now_iso : String)
    (window_min : ℤ) (dry_run also_story : Bool) (rec : Rec) :
    Rec × Bool × List RemoteCall :=
  if pyTruthyStr rec.published_at_iso then (rec, false, [])
  else
    match rec.post_at_iso with
    | none => (rec, false, [])
    | some t =>
      if !is_due now_utc t window_min then (rec, false, [])
      else
        match post_one api rec (env.IG_USER_ID.getD "")
            (env.IG_ACCESS_TOKEN.getD "") env.PUBLIC_BASE_URL
            dry_run also_story with
        | (.error e, calls) =>
          ({rec with publish_error := some e,
                     publish_attempted_at_iso := some now_iso}, true, calls)
        | (.ok result, calls) =>
          if dry_run then
            ({rec with publish_attempted_at_iso := some now_iso,
                       dry_run_info := some result}, true, calls)
          else
            match result with
            | .posted creation_id media_id video_url _ =>
              ({rec with publish_attempted_at_iso := some now_iso,
                         published_at_iso := some now_iso,
                         ig_creation_id := some creation_id,
                         ig_media_id := some media_id,
                         public_video_url :=
                           if rec.public_video_url.isNone then some video_url
                           else rec.public_video_url}, true, calls)
            | .dry _ _ _ =>
              ({rec with publish_attempted_at_iso := some now_iso}, true, calls)

/-- What one cycle did: the returned `changed` flag, the final record
list, whether `save_schedule` was called and with what, and every
remote call made. -/
structure CycleRun where
  changed : Bool
  records : List Rec
  wrote : Bool
  written : Option (List Rec)
  calls : List RemoteCall
deriving DecidableEq, Repr

/-- Model of `process_due_items(window_min, dry_run, also_story)`: raise
`SystemExit` when either credential is falsy; return `changed = False`
without writing when the loaded schedule is empty; otherwise run the
loop body on every record in order and call `save_schedule` with the
full list iff any record changed. -/
def process_due_items (api : RemoteApi) (env : Env) (now_utc : ℚ)
    (now_iso : String) (schedule : List Rec) (window_min : ℤ)
    (dry_run also_story : Bool) : Except String CycleRun :=
  if !(pyTruthyStr env.IG_ACCESS_TOKEN && pyTruthyStr env.IG_USER_ID) then
    .error missing_creds_error
  else if schedule.isEmpty then
    .ok ⟨false, schedule, false, none, []⟩
  else
    let steps := schedule.map
      (step_record api env now_utc now_iso window_min dry_run also_story)
    let recs := steps.map (fun s => s.1)
    let changed := steps.any (fun s => s.2.1)
    .ok ⟨changed, recs, changed, if changed then some recs else none,
         (steps.map (fun s => s.2.2)).flatten⟩

/-! ## Helper lemmas on the cycle -/

/-- A record the loop body skips without touching it: already
published, unscheduled, or not due. -/
def record_skipped (now_utc : ℚ) (window_min : ℤ) (rec : Rec) : Prop :=
  pyTruthyStr rec.published_at_iso = true ∨ rec.post_at_iso = none ∨
    (∀ t, rec.post_at_iso = some t → is_due now_utc t window_min = false)

lemma step_record_published (api : RemoteApi) (env : Env) (now_utc : ℚ)
    (now_iso : String) (w : ℤ) (dry story : Bool) (rec : Rec)
    (h : pyTruthyStr rec.published_at_iso = true) :
    step_record api env now_utc now_iso w dry story rec = (rec, false, []) := by
  simp [step_record, h]

lemma step_record_noop (api : RemoteApi) (env : Env) (now_utc : ℚ)
    (now_iso : String) (w : ℤ) (dry story : Bool) (rec : Rec)
    (h : record_skipped now_utc w rec) :
    step_record api env now_utc now_iso w dry story rec = (rec, false, []) := by
  by_cases hp : pyTruthyStr rec.published_at_iso = true
  · exact step_record_published api env now_utc now_iso w dry story rec hp
  · rcases h with h | h | h
    · exact absurd h hp
    · simp [step_record, Bool.eq_false_iff.mpr hp, h]
    · cases ht : rec.post_at_iso with
      | none => simp [step_record, Bool.eq_false_iff.mpr hp, ht]
      | some t =>
        simp [step_record, Bool.eq_false_iff.mpr hp, ht, h t ht]

lemma step_record_fail (api : RemoteApi) (env : Env) (now_utc : ℚ)
    (now_iso : String) (w : ℤ) (dry story : Bool) (rec : Rec) (t : AwareTime)
    (e : String) (calls : List RemoteCall)
    (hp : pyTruthyStr rec.published_at_iso = false)
    (ht : rec.post_at_iso = some t)
    (hd : is_due now_utc t w = true)
    (hpost : post_one api rec (env.IG_USER_ID.getD "")
        (env.IG_ACCESS_TOKEN.getD "") env.PUBLIC_BASE_URL dry story =
      (.error e, calls)) :
    step_record api env now_utc now_iso w dry story rec =
      ({rec with publish_error := some e,
                 publish_attempted_at_iso := some now_iso}, true, calls) := by
  simp [step_record, hp, ht, hd, hpost]

lemma step_record_dry (api : RemoteApi) (env : Env) (now_utc : ℚ)
    (now_iso : String) (w : ℤ) (story : Bool) (rec : Rec) (t : AwareTime)
    (vurl : String)
    (hp : pyTruthyStr rec.published_at_iso = false)
    (ht : rec.post_at_iso = some t)
    (hd : is_due now_utc t w = true)
    (hres : resolve_video_url rec env.PUBLIC_BASE_URL = .ok vurl) :
    step_record api env now_utc now_iso w true story rec =
      ({rec with publish_attempted_at_iso := some now_iso,
                 dry_run_info := some (.dry vurl
                   (caption_preview (build_caption rec)) story)}, true, []) := by
  simp [step_record, hp, ht, hd, post_one, hres]

lemma step_record_posted (api : RemoteApi) (env : Env) (now_utc : ℚ)
    (now_iso : String) (w : ℤ) (story : Bool) (rec : Rec) (t : AwareTime)
    (cid mid vurl : String) (sid : Option String) (calls : List RemoteCall)
    (hp : pyTruthyStr rec.published_at_iso = false)
    (ht : rec.post_at_iso = some t)
    (hd : is_due now_utc t w = true)
    (hpost : post_one api rec (env.IG_USER_ID.getD "")
        (env.IG_ACCESS_TOKEN.getD "") env.PUBLIC_BASE_URL false story =
      (.ok (.posted cid mid vurl sid), calls)) :
    step_record api env now_utc now_iso w false story rec =
      ({rec with publish_attempted_at_iso := some now_iso,
                 published_at_iso := some now_iso,
                 ig_creation_id := some cid,
                 ig_media_id := some mid,
                 public_video_url :=
                   if rec.public_video_url.isNone then some vurl
                   else rec.public_video_url}, true, calls) := by
  simp [step_record, hp, ht, hd, hpost]

lemma map_fst_noop (l : List Rec) :
    ((l.map (fun r => ((r : Rec), false, ([] : List RemoteCall)))).map
      (fun s => s.1)) = l := by
  induction l with
  | nil => rfl
  | cons a l ih => simp [ih]

lemma any_noop (l : List Rec) :
    ((l.map (fun r => ((r : Rec), false, ([] : List RemoteCall)))).any
      (fun s => s.2.1)) = false := by
  induction l with
  | nil => rfl
  | cons a l ih => simp [ih]

lemma flatten_noop (l : List Rec) :
    (((l.map (fun r => ((r : Rec), false, ([] : List RemoteCall)))).map
      (fun s => s.2.2)).flatten) = [] := by
  induction l with
  | nil => rfl
  | cons a l ih => simp [ih]

lemma process_due_items_ok (api : RemoteApi) (env : Env) (now_utc : ℚ)
    (now_iso : String) (schedule : List Rec) (w : ℤ) (dry story : Bool)
    (hcredA : pyTruthyStr env.IG_ACCESS_TOKEN = true)
    (hcredU : pyTruthyStr env.IG_USER_ID = true) :
    process_due_items api env now_utc now_iso schedule w dry story =
      (if schedule.isEmpty then
        .ok ⟨false, schedule, false, none, []⟩
      else
        let steps := schedule.map
          (step_record api env now_utc now_iso w dry story)
        .ok ⟨steps.any (fun s => s.2.1), steps.map (fun s => s.1),
             steps.any (fun s => s.2.1),
             if steps.any (fun s => s.2.1) then some (steps.map (fun s => s.1))
             else none,
             (steps.map (fun s => s.2.2)).flatten⟩) := by
  simp [process_due_items, hcredA, hcredU]

lemma cycle_noop (api : RemoteApi) (env : Env) (now_utc : ℚ)
    (now_iso : String) (schedule : List Rec) (w : ℤ) (dry story : Bool)
    (hcredA : pyTruthyStr env.IG_ACCESS_TOKEN = true)
    (hcredU : pyTruthyStr env.IG_USER_ID = true)
    (h : ∀ r ∈ schedule, step_record api env now_utc now_iso w dry story r =
      (r, false, [])) :
    process_due_items api env now_utc now_iso schedule w dry story =
      .ok ⟨false, schedule, false, none, []⟩ := by
  rw [process_due_items_ok api env now_utc now_iso schedule w dry story
    hcredA hcredU]
  by_cases he : schedule.isEmpty
  · simp [he]
  · have hsteps : schedule.map
        (step_record api env now_utc now_iso w dry story) =
        schedule.map (fun r => (r, false, [])) :=
      List.map_congr_left h
    simp only [he, if_false, hsteps, map_fst_noop, any_noop, flatten_noop]
    simp

/-! ## Concrete material for witnesses -/

/-- A schedule record with every optional field absent. -/
def recBase : Rec :=
  ⟨"r1", none, none, none, none, none, none, none, none, none, none⟩

/-- A remote API oracle on which every call succeeds. -/
def demoApi : RemoteApi :=
  ⟨fun _ => .ok "CID-1", fun _ => .ok (), fun _ => .ok "MID-1"⟩

/-- An environment with both credentials set and no base URL. -/
def envNoBase : Env := ⟨some "tok", some "uid", none⟩

/-! ## Claims -/

/-- C1: `is_due(scheduled_time, window_minutes)` is true iff
`0 <= (now_utc - scheduled_time normalized to UTC) < window_minutes`
(the difference measured in minutes): a time exactly at `now` is due
for any positive window, a time exactly `window_minutes` in the past
is not due (half-open upper bound), a future time is not due, and a
time more than `window_minutes` in the past is not due. -/
theorem is_due_spec (now_utc : ℚ) (t : AwareTime) (w : ℤ) :
    (is_due now_utc t w = true ↔
      0 ≤ (now_utc - astimezone_utc t) / 60 ∧
        (now_utc - astimezone_utc t) / 60 < (w : ℚ)) ∧
    (astimezone_utc t = now_utc → 0 < w → is_due now_utc t w = true) ∧
    (now_utc - astimezone_utc t = 60 * (w : ℚ) →
      is_due now_utc t w = false) ∧
    (now_utc < astimezone_utc t → is_due now_utc t w = false) ∧
    (60 * (w : ℚ) < now_utc - astimezone_utc t →
      is_due now_utc t w = false) := by
  have hiff : is_due now_utc t w = true ↔
      0 ≤ (now_utc - astimezone_utc t) / 60 ∧
        (now_utc - astimezone_utc t) / 60 < (w : ℚ) := by
    simp [is_due, ge_iff_le]
  refine ⟨hiff, ?_, ?_, ?_, ?_⟩
  · intro h hw
    rw [hiff, h, sub_self]
    norm_num
    exact_mod_cast hw
  · intro h
    rw [Bool.eq_false_iff]
    intro hT
    rw [hiff] at hT
    linarith [hT.2]
  · intro h
    rw [Bool.eq_false_iff]
    intro hT
    rw [hiff] at hT
    linarith [hT.1]
  · intro h
    rw [Bool.eq_false_iff]
    intro hT
    rw [hiff] at hT
    linarith [hT.2]

/-- Witness for C1: a record scheduled exactly at `now` (offset +330
minutes) is due with a 5-minute window. -/
theorem is_due_spec_witness : is_due 0 ⟨0, 330⟩ 5 = true :=
  (is_due_spec 0 ⟨0, 330⟩ 5).2.1 rfl (by norm_num)

/-- C8: the built caption is the stripped main text alone when the
hashtag text is empty after stripping, and
`main ++ "\n\n" ++ hashtags` (both stripped) otherwise. -/
theorem build_caption_spec (rec : Rec) :
    (pyStrip (rec.post_caption_hashtags.getD "") = "" →
      build_caption rec = pyStrip (rec.post_caption_main.getD "")) ∧
    (pyStrip (rec.post_caption_hashtags.getD "") ≠ "" →
      build_caption rec =
        pyStrip (rec.post_caption_main.getD "") ++ "\n\n" ++
          pyStrip (rec.post_caption_hashtags.getD "")) := by
  constructor <;> intro h <;> simp [build_caption, h]

/-- The record used by the C8 witness. -/
def recC8 : Rec :=
  { recBase with post_caption_main := some "  hi there  ",
                 post_caption_hashtags := some " #a #b " }

/-- Witness for C8: a concrete record with whitespace-padded caption
fields gets the two-part caption with the blank-line separator. -/
theorem build_caption_spec_witness :
    pyStrip (recC8.post_caption_hashtags.getD "") ≠ "" ∧
    build_caption recC8 =
      pyStrip (recC8.post_caption_main.getD "") ++ "\n\n" ++
        pyStrip (recC8.post_caption_hashtags.getD "") :=
  ⟨by decide, (build_caption_spec recC8).2 (by decide)⟩

/-- C10: a record whose `public_video_url` key is present but equal to
`""` is treated as having no explicit URL: with a non-empty base URL
the media URL is derived as `<base>/reels/<id>/reel.mp4`, and with no
base URL configured the missing-URL error is raised even though the
field exists on the record. -/
theorem empty_public_video_url_spec (rec : Rec) (base : String)
    (h : rec.public_video_url = some "") :
    (base ≠ "" →
      resolve_video_url rec (some base) =
        .ok (rstripSlashes base ++ "/" ++
          ("reels/" ++ rec.id ++ "/reel.mp4"))) ∧
    resolve_video_url rec none = .error no_url_error := by
  constructor
  · intro hb
    simp [resolve_video_url, h, pyTruthyStr, hb, urljoin]
  · simp [resolve_video_url, h, pyTruthyStr]

/-- The record used by the C10 witness: a present-but-empty
`public_video_url`. -/
def recC10 : Rec := { recBase with id := "vid7", public_video_url := some "" }

/-- Witness for C10: the URL is derived from the base despite the
present-but-empty explicit field. -/
theorem empty_public_video_url_spec_witness :
    resolve_video_url recC10 (some "https://cdn.example") =
      .ok (rstripSlashes "https://cdn.example" ++ "/" ++
        ("reels/" ++ recC10.id ++ "/reel.mp4")) :=
  (empty_public_video_url_spec recC10 "https://cdn.example" rfl).1 (by decide)

/-- C4: a record whose `published_at_iso` field is set is never
re-processed: the loop body makes no remote call for it and leaves it
completely unchanged; and when every record of the schedule is in this
state the cycle returns `changed = false` (and writes nothing). -/
theorem published_skip_spec (api : RemoteApi) (env : Env) (now_utc : ℚ)
    (now_iso : String) (w : ℤ) (dry story : Bool) (schedule : List Rec)
    (hcredA : pyTruthyStr env.IG_ACCESS_TOKEN = true)
    (hcredU : pyTruthyStr env.IG_USER_ID = true)
    (hall : ∀ r ∈ schedule, pyTruthyStr r.published_at_iso = true) :
    (∀ r : Rec, pyTruthyStr r.published_at_iso = true →
      step_record api env now_utc now_iso w dry story r = (r, false, [])) ∧
    process_due_items api env now_utc now_iso schedule w dry story =
      .ok ⟨false, schedule, false, none, []⟩ := by
  refine ⟨fun r hr => step_record_published api env now_utc now_iso w dry
    story r hr, ?_⟩
  exact cycle_noop api env now_utc now_iso schedule w dry story hcredA hcredU
    (fun r hr => step_record_published api env now_utc now_iso w dry story r
      (hall r hr))

/-- The already-published record used by the C4 witness. -/
def recC4 : Rec :=
  { recBase with id := "done1", post_at_iso := some ⟨0, 0⟩,
                 published_at_iso := some "2025-01-01T00:00:00+00:00" }

/-- Witness for C4: a one-record schedule whose record is already
published yields `changed = false`, the untouched list, no write and
no remote call. -/
theorem published_skip_spec_witness :
    process_due_items demoApi envNoBase 0 "T4" [recC4] 30 false true =
      .ok ⟨false, [recC4], false, none, []⟩ :=
  (published_skip_spec demoApi envNoBase 0 "T4" 30 false true [recC4]
    (by decide) (by decide) (by decide)).2

/-- C5: a cycle writes the schedule file iff at least one record was
mutated (`changed`), the write is of the full stepped record list in
original order, and with no due items two successive cycles both
return `changed = false` and leave the record list (hence the file)
unmodified. -/
theorem persist_iff_changed_spec (api : RemoteApi) (env : Env) (now_utc : ℚ)
    (now_iso : String) (w : ℤ) (dry story : Bool) (schedule : List Rec)
    (hcredA : pyTruthyStr env.IG_ACCESS_TOKEN = true)
    (hcredU : pyTruthyStr env.IG_USER_ID = true) :
    (∀ run : CycleRun,
      process_due_items api env now_utc now_iso schedule w dry story =
        .ok run →
      run.wrote = run.changed ∧
      run.written = (if run.changed = true then some run.records else none) ∧
      run.records = schedule.map
        (fun r => (step_record api env now_utc now_iso w dry story r).1) ∧
      (run.changed = true ↔ ∃ r ∈ schedule,
        (step_record api env now_utc now_iso w dry story r).2.1 = true)) ∧
    ((∀ r ∈ schedule, record_skipped now_utc w r) →
      process_due_items api env now_utc now_iso schedule w dry story =
        .ok ⟨false, schedule, false, none, []⟩ ∧
      process_due_items api env now_utc now_iso
          (CycleRun.records ⟨false, schedule, false, none, []⟩) w dry story =
        .ok ⟨false, schedule, false, none, []⟩) := by
  constructor
  · intro run hrun
    rw [process_due_items_ok api env now_utc now_iso schedule w dry story
      hcredA hcredU] at hrun
    by_cases he : schedule.isEmpty
    · rw [if_pos he] at hrun
      have hsch : schedule = [] := List.isEmpty_iff.mp he
      obtain rfl := (Except.ok.injEq _ _).mp hrun
      subst hsch
      simp
    · rw [if_neg he] at hrun
      obtain rfl := (Except.ok.injEq _ _).mp hrun
      refine ⟨rfl, rfl, ?_, ?_⟩
      · simp [List.map_map, Function.comp]
      · simp [List.any_map, List.any_eq_true, Function.comp]
  · intro hskip
    have h := cycle_noop api env now_utc now_iso schedule w dry story hcredA
      hcredU (fun r hr => step_record_noop api env now_utc now_iso w dry
        story r (hskip r hr))
    exact ⟨h, h⟩

/-- An already-published record for the C5 witness. -/
def recC5a : Rec :=
  { recBase with id := "old5", post_at_iso := some ⟨0, 0⟩,
                 published_at_iso := some "2025-02-02T08:00:00+00:00" }

/-- A pending record scheduled 600 seconds in the future for the C5
witness: not due at `now = 0`. -/
def recC5b : Rec :=
  { recBase with id := "fut5", post_at_iso := some ⟨600, 0⟩ }

/-- Witness for C5: with one published and one future record nothing
is due, so the cycle changes nothing and skips the write. -/
theorem persist_iff_changed_spec_witness :
    process_due_items demoApi envNoBase 0 "T5" [recC5a, recC5b] 20 false
        false =
      .ok ⟨false, [recC5a, recC5b], false, none, []⟩ :=
  ((persist_iff_changed_spec demoApi envNoBase 0 "T5" 20 false false
      [recC5a, recC5b] (by decide) (by decide)).2 (by
    intro r hr
    simp only [List.mem_cons, List.not_mem_nil, or_false] at hr
    rcases hr with rfl | rfl
    · exact Or.inl (by decide)
    · refine Or.inr (Or.inr ?_)
      intro t' ht'
      have : t' = ⟨600, 0⟩ := by
        simpa [recC5b, recBase] using ht'.symm
      subst this
      norm_num [is_due, astimezone_utc])).1

/-- C3: when publishing a due record fails, the cycle stamps
`publish_attempted_at_iso` and `publish_error` onto that record,
leaves `published_at_iso` unset, still processes every other record in
order, returns `changed = true` and writes the schedule. -/
theorem failed_publish_spec (api : RemoteApi) (env : Env) (now_utc : ℚ)
    (now_iso : String) (w : ℤ) (dry story : Bool) (pre post : List Rec)
    (rec : Rec) (t : AwareTime) (e : String) (calls : List RemoteCall)
    (hcredA : pyTruthyStr env.IG_ACCESS_TOKEN = true)
    (hcredU : pyTruthyStr env.IG_USER_ID = true)
    (hpub : pyTruthyStr rec.published_at_iso = false)
    (ht : rec.post_at_iso = some t)
    (hdue : is_due now_utc t w = true)
    (hfail : post_one api rec (env.IG_USER_ID.getD "")
        (env.IG_ACCESS_TOKEN.getD "") env.PUBLIC_BASE_URL dry story =
      (.error e, calls)) :
    ∀ run : CycleRun,
      process_due_items api env now_utc now_iso (pre ++ rec :: post) w dry
          story = .ok run →
      run.changed = true ∧ run.wrote = true ∧
      run.records = pre.map
          (fun r => (step_record api env now_utc now_iso w dry story r).1) ++
        ({rec with publish_error := some e,
                   publish_attempted_at_iso := some now_iso}) ::
        post.map
          (fun r => (step_record api env now_utc now_iso w dry story r).1) ∧
      pyTruthyStr ({rec with publish_error := some e,
                             publish_attempted_at_iso := some now_iso} :
        Rec).published_at_iso = false := by
  intro run hrun
  have hstep := step_record_fail api env now_utc now_iso w dry story rec t e
    calls hpub ht hdue hfail
  rw [process_due_items_ok api env now_utc now_iso (pre ++ rec :: post) w dry
    story hcredA hcredU] at hrun
  have hne : (pre ++ rec :: post).isEmpty = false := by
    cases pre <;> simp
  simp only [hne, Bool.false_eq_true, if_false] at hrun
  obtain rfl := (Except.ok.injEq _ _).mp hrun
  refine ⟨?_, ?_, ?_, hpub⟩
  · simp [List.map_append, hstep]
  · simp [List.map_append, hstep]
  · simp [List.map_append, hstep, List.map_map, Function.comp_def]

/-- A due record with no URL source, used by the C3 witness: under
`envNoBase` its `post_one` raises the missing-URL error. -/
def recC3 : Rec := { recBase with id := "fail3", post_at_iso := some ⟨0, 330⟩ }

/-- Record `recC3` after the failure branch stamped it. -/
def recC3s : Rec :=
  { recC3 with publish_error := some no_url_error,
               publish_attempted_at_iso := some "T3" }

/-- Witness for C3: a one-record schedule whose publish fails gets the
error stamped, `changed = true`, the write performed, and
`published_at_iso` still unset. -/
theorem failed_publish_spec_witness :
    process_due_items demoApi envNoBase 0 "T3" ([] ++ recC3 :: []) 20 false
        false = .ok ⟨true, [recC3s], true, some [recC3s], []⟩ ∧
    (⟨true, [recC3s], true, some [recC3s], []⟩ : CycleRun).changed = true ∧
    pyTruthyStr recC3s.published_at_iso = false := by
  have hstep := step_record_fail demoApi envNoBase 0 "T3" 20 false false
    recC3 ⟨0, 330⟩ no_url_error [] (by decide) rfl
    (by norm_num [is_due, astimezone_utc]) rfl
  have hproc : process_due_items demoApi envNoBase 0 "T3"
      ([] ++ recC3 :: []) 20 false false =
      .ok ⟨true, [recC3s], true, some [recC3s], []⟩ := by
    rw [process_due_items_ok demoApi envNoBase 0 "T3" ([] ++ recC3 :: []) 20
      false false (by decide) (by decide)]
    simp [hstep, recC3s]
  have h := failed_publish_spec demoApi envNoBase 0 "T3" 20 false false [] []
    recC3 ⟨0, 330⟩ no_url_error [] (by decide) (by decide) (by decide) rfl
    (by norm_num [is_due, astimezone_utc]) rfl
    ⟨true, [recC3s], true, some [recC3s], []⟩ hproc
  exact ⟨hproc, h.1, h.2.2.2⟩

/-- The due record with no URL source used by the C2 counterexample. -/
def recC2a : Rec := { recBase with id := "nourl2", post_at_iso := some ⟨0, 330⟩ }

/-- A second due record, with an explicit URL, used by the C2
counterexample. -/
def recC2b : Rec :=
  { recBase with id := "hasurl2", post_at_iso := some ⟨0, 330⟩,
                 public_video_url := some "https://cdn.example/v.mp4" }

/-- Record `recC2a` after the missing-URL failure was stamped onto it. -/
def recC2as : Rec :=
  { recC2a with publish_error := some no_url_error,
                publish_attempted_at_iso := some "T2" }

/-- Record `recC2b` after a successful publish on `demoApi`. -/
def recC2bs : Rec :=
  { recC2b with publish_attempted_at_iso := some "T2",
                published_at_iso := some "T2",
                ig_creation_id := some "CID-1",
                ig_media_id := some "MID-1" }

/-- The REELS create-container payload `post_one` sends for `recC2b`. -/
def payloadC2b : CreatePayload :=
  ⟨"REELS", "tok", some "https://cdn.example/v.mp4", none, some "", some true⟩

/-- Counterexample to C2: with both credentials set, no base URL, and
a due record lacking any URL source, the cycle does NOT fail: the
missing-URL configuration error is swallowed per-record (the record is
mutated), the following record is still processed and published, and
the cycle returns `changed = true` — contradicting "fatal to the whole
cycle; no records are processed; no record is mutated; the error
propagates to the caller". -/
theorem config_error_not_fatal_cex :
    process_due_items demoApi envNoBase 0 "T2" [recC2a, recC2b] 20 false
        false =
      .ok ⟨true, [recC2as, recC2bs], true, some [recC2as, recC2bs],
           [.create payloadC2b, .wait "CID-1", .publish "CID-1"]⟩ := by
  have hstepa := step_record_fail demoApi envNoBase 0 "T2" 20 false false
    recC2a ⟨0, 330⟩ no_url_error [] (by decide) rfl
    (by norm_num [is_due, astimezone_utc]) rfl
  have hstepb := step_record_posted demoApi envNoBase 0 "T2" 20 false
    recC2b ⟨0, 330⟩ "CID-1" "MID-1" "https://cdn.example/v.mp4" none
    [.create payloadC2b, .wait "CID-1", .publish "CID-1"]
    (by decide) rfl (by norm_num [is_due, astimezone_utc]) rfl
  rw [process_due_items_ok demoApi envNoBase 0 "T2" [recC2a, recC2b] 20
    false false (by decide) (by decide)]
  simp [hstepa, hstepb, recC2as, recC2bs]
  decide

/-- C2 (amended): a due record with no explicit `public_video_url` and
no configured base URL is a per-record failure, not a cycle-fatal one:
the record is stamped with the missing-URL error and the attempt time,
its `published_at_iso` stays unset, the remaining records are still
processed in order, and the cycle returns `changed = true`; only
missing credentials abort the whole cycle before any record is
processed. -/
theorem missing_url_per_record (api : RemoteApi) (env : Env) (now_utc : ℚ)
    (now_iso : String) (w : ℤ) (dry story : Bool) (pre post : List Rec)
    (rec : Rec) (t : AwareTime)
    (hcredA : pyTruthyStr env.IG_ACCESS_TOKEN = true)
    (hcredU : pyTruthyStr env.IG_USER_ID = true)
    (hnourl : pyTruthyStr rec.public_video_url = false)
    (hnobase : pyTruthyStr env.PUBLIC_BASE_URL = false)
    (hpub : pyTruthyStr rec.published_at_iso = false)
    (ht : rec.post_at_iso = some t)
    (hdue : is_due now_utc t w = true) :
    (∀ run : CycleRun,
      process_due_items api env now_utc now_iso (pre ++ rec :: post) w dry
          story = .ok run →
      run.changed = true ∧
      run.records = pre.map
          (fun r => (step_record api env now_utc now_iso w dry story r).1) ++
        ({rec with publish_error := some no_url_error,
                   publish_attempted_at_iso := some now_iso}) ::
        post.map
          (fun r => (step_record api env now_utc now_iso w dry story r).1)) ∧
    (∀ (envBad : Env) (sched : List Rec),
      pyTruthyStr envBad.IG_ACCESS_TOKEN = false ∨
        pyTruthyStr envBad.IG_USER_ID = false →
      process_due_items api envBad now_utc now_iso sched w dry story =
        .error missing_creds_error) := by
  constructor
  · have hres : resolve_video_url rec env.PUBLIC_BASE_URL =
        .error no_url_error := by
      simp [resolve_video_url, hnourl, hnobase]
    have hfail : post_one api rec (env.IG_USER_ID.getD "")
        (env.IG_ACCESS_TOKEN.getD "") env.PUBLIC_BASE_URL dry story =
        (.error no_url_error, []) := by
      simp [post_one, hres]
    intro run hrun
    have h := failed_publish_spec api env now_utc now_iso w dry story pre
      post rec t no_url_error [] hcredA hcredU hpub ht hdue hfail run hrun
    exact ⟨h.1, h.2.2.1⟩
  · intro envBad sched hbad
    rcases hbad with hbad | hbad <;>
      simp [process_due_items, hbad]

/-- C7: in dry-run mode, publishing a due record makes no remote call
(`post_one` returns with an empty call trace and the cycle adds no
calls for it); the record receives `publish_attempted_at_iso` and a
`dry_run_info` payload holding the resolved URL and a caption preview
that equals the caption when it has at most 160 characters and
otherwise its first 160 characters followed by `"..."`;
`published_at_iso` remains unset. -/
theorem dry_run_spec (api : RemoteApi) (env : Env) (now_utc : ℚ)
    (now_iso : String) (w : ℤ) (story : Bool) (pre post : List Rec)
    (rec : Rec) (t : AwareTime) (vurl : String)
    (hcredA : pyTruthyStr env.IG_ACCESS_TOKEN = true)
    (hcredU : pyTruthyStr env.IG_USER_ID = true)
    (hpub : pyTruthyStr rec.published_at_iso = false)
    (ht : rec.post_at_iso = some t)
    (hdue : is_due now_utc t w = true)
    (hres : resolve_video_url rec env.PUBLIC_BASE_URL = .ok vurl) :
    post_one api rec (env.IG_USER_ID.getD "") (env.IG_ACCESS_TOKEN.getD "")
        env.PUBLIC_BASE_URL true story =
      (.ok (.dry vurl (caption_preview (build_caption rec)) story), []) ∧
    step_record api env now_utc now_iso w true story rec =
      ({rec with publish_attempted_at_iso := some now_iso,
                 dry_run_info := some (.dry vurl
                   (caption_preview (build_caption rec)) story)}, true, []) ∧
    pyTruthyStr ({rec with publish_attempted_at_iso := some now_iso,
                           dry_run_info := some (.dry vurl
                             (caption_preview (build_caption rec)) story)} :
      Rec).published_at_iso = false ∧
    ((build_caption rec).length ≤ 160 →
      caption_preview (build_caption rec) = build_caption rec) ∧
    (160 < (build_caption rec).length →
      caption_preview (build_caption rec) =
        pySlice (build_caption rec) 160 ++ "...") ∧
    (∀ run : CycleRun,
      process_due_items api env now_utc now_iso (pre ++ rec :: post) w true
          story = .ok run →
      run.changed = true ∧
      run.records = pre.map
          (fun r => (step_record api env now_utc now_iso w true story r).1) ++
        ({rec with publish_attempted_at_iso := some now_iso,
                   dry_run_info := some (.dry vurl
                     (caption_preview (build_caption rec)) story)}) ::
        post.map
          (fun r => (step_record api env now_utc now_iso w true story r).1) ∧
      run.calls =
        ((pre.map (step_record api env now_utc now_iso w true story)).map
          (fun s => s.2.2)).flatten ++
        ((post.map (step_record api env now_utc now_iso w true story)).map
          (fun s => s.2.2)).flatten) := by
  have hpost : post_one api rec (env.IG_USER_ID.getD "")
      (env.IG_ACCESS_TOKEN.getD "") env.PUBLIC_BASE_URL true story =
      (.ok (.dry vurl (caption_preview (build_caption rec)) story), []) := by
    simp [post_one, hres]
  have hstep := step_record_dry api env now_utc now_iso w story rec t vurl
    hpub ht hdue hres
  refine ⟨hpost, hstep, hpub, ?_, ?_, ?_⟩
  · intro hlen
    unfold caption_preview
    rw [if_neg (by omega)]
    have hlen2 : (build_caption rec).data.length ≤ 160 := hlen
    have hs : pySlice (build_caption rec) 160 = build_caption rec := by
      unfold pySlice
      rw [List.take_of_length_le hlen2]
    rw [hs]
    simp
  · intro hlen
    unfold caption_preview
    rw [if_pos (by omega)]
  · intro run hrun
    rw [process_due_items_ok api env now_utc now_iso (pre ++ rec :: post) w
      true story hcredA hcredU] at hrun
    have hne : (pre ++ rec :: post).isEmpty = false := by
      cases pre <;> simp
    simp only [hne, Bool.false_eq_true, if_false] at hrun
    obtain rfl := (Except.ok.injEq _ _).mp hrun
    refine ⟨?_, ?_, ?_⟩
    · simp [List.map_append, hstep]
    · simp [List.map_append, hstep, List.map_map, Function.comp_def]
    · simp [List.map_append, hstep]

/-- The due record with an explicit URL and a short caption used by
the C7 witness. -/
def recC7 : Rec :=
  { recBase with id := "dry7", post_at_iso := some ⟨0, 330⟩,
                 public_video_url := some "https://cdn.example/d.mp4",
                 post_caption_main := some "hello world" }

/-- Witness for C7: the dry run of `recC7` makes no remote call,
stamps the preview payload, leaves `published_at_iso` unset, and the
short caption is previewed whole. -/
theorem dry_run_spec_witness :
    post_one demoApi recC7 (envNoBase.IG_USER_ID.getD "")
        (envNoBase.IG_ACCESS_TOKEN.getD "") envNoBase.PUBLIC_BASE_URL true
        false =
      (.ok (.dry "https://cdn.example/d.mp4"
        (caption_preview (build_caption recC7)) false), []) ∧
    caption_preview (build_caption recC7) = build_caption recC7 := by
  have h := dry_run_spec demoApi envNoBase 0 "T7" 20 false [] [] recC7
    ⟨0, 330⟩ "https://cdn.example/d.mp4" (by decide) (by decide) (by decide)
    rfl (by norm_num [is_due, astimezone_utc]) rfl
  exact ⟨h.1, h.2.2.2.1 (by decide)⟩

/-- C9: a successful non-dry-run publish does not clear a stale
`publish_error`: the success branch only sets
`publish_attempted_at_iso`, `published_at_iso`, `ig_creation_id`,
`ig_media_id` and (only when absent) `public_video_url`, so the
stepped record still carries the old `publish_error` next to its new
`published_at_iso`. -/
theorem success_keeps_stale_error (api : RemoteApi) (env : Env)
    (now_utc : ℚ) (now_iso : String) (w : ℤ) (story : Bool) (rec : Rec)
    (t : AwareTime) (e0 cid mid vurl : String) (sid : Option String)
    (calls : List RemoteCall)
    (hpub : pyTruthyStr rec.published_at_iso = false)
    (herr : rec.publish_error = some e0)
    (ht : rec.post_at_iso = some t)
    (hdue : is_due now_utc t w = true)
    (hpost : post_one api rec (env.IG_USER_ID.getD "")
        (env.IG_ACCESS_TOKEN.getD "") env.PUBLIC_BASE_URL false story =
      (.ok (.posted cid mid vurl sid), calls)) :
    step_record api env now_utc now_iso w false story rec =
      ({rec with publish_attempted_at_iso := some now_iso,
                 published_at_iso := some now_iso,
                 ig_creation_id := some cid,
                 ig_media_id := some mid,
                 public_video_url :=
                   if rec.public_video_url.isNone then some vurl
                   else rec.public_video_url}, true, calls) ∧
    (step_record api env now_utc now_iso w false story rec).1.publish_error =
      some e0 ∧
    (step_record api env now_utc now_iso w false story
      rec).1.published_at_iso = some now_iso := by
  have hstep := step_record_posted api env now_utc now_iso w story rec t cid
    mid vurl sid calls hpub ht hdue hpost
  refine ⟨hstep, ?_, ?_⟩
  · rw [hstep]
    exact herr
  · rw [hstep]

/-- The record with a stale `publish_error` used by the C9 witness. -/
def recC9 : Rec :=
  { recBase with id := "retry9", post_at_iso := some ⟨0, 330⟩,
                 public_video_url := some "https://cdn.example/r.mp4",
                 publish_error := some "HTTP 400 old failure" }

/-- Witness for C9: after a successful publish, `recC9` carries both
`published_at_iso = "T9"` and its old `publish_error`. -/
theorem success_keeps_stale_error_witness :
    (step_record demoApi envNoBase 0 "T9" 20 false false
      recC9).1.publish_error = some "HTTP 400 old failure" ∧
    (step_record demoApi envNoBase 0 "T9" 20 false false
      recC9).1.published_at_iso = some "T9" := by
  have h := success_keeps_stale_error demoApi envNoBase 0 "T9" 20 false
    recC9 ⟨0, 330⟩ "HTTP 400 old failure" "CID-1" "MID-1"
    "https://cdn.example/r.mp4" none
    [.create ⟨"REELS", "tok", some "https://cdn.example/r.mp4", none,
      some "", some true⟩, .wait "CID-1", .publish "CID-1"]
    (by decide) rfl rfl (by norm_num [is_due, astimezone_utc]) rfl
  exact ⟨h.2.1, h.2.2⟩

/-- The due record without URL source used by the C2 amended-claim
witness. -/
def recC2w : Rec := { recBase with id := "w2", post_at_iso := some ⟨0, 330⟩ }

/-- Witness for the amended C2: with a missing access token the cycle
is aborted with the missing-credentials error. -/
theorem missing_url_per_record_witness :
    process_due_items demoApi (⟨none, some "uid", none⟩ : Env) 0 "T2w" []
      20 false false = .error missing_creds_error :=
  (missing_url_per_record demoApi envNoBase 0 "T2w" 20 false false [] []
      recC2w ⟨0, 330⟩ (by decide) (by decide) (by decide) (by decide)
      (by decide) rfl (by norm_num [is_due, astimezone_utc])).2
    ⟨none, some "uid", none⟩ [] (Or.inl (by decide))

/-! ## Lemmas on the transport retry loop -/

lemma http_loop_attempts_le (oracle : ℕ → AttemptResult) (ok : List ℕ)
    (b : ℚ) : ∀ (fuel attempt : ℕ),
    (http_request_loop oracle ok b attempt fuel).attempts ≤ fuel := by
  intro fuel
  induction fuel with
  | zero => intro a; simp [http_request_loop]
  | succ n ih =>
    intro a
    simp only [http_request_loop]
    cases ho : oracle a with
    | netError =>
      by_cases hn : n = 0
      · simp [hn]
      · simp only [if_neg hn]
        exact Nat.succ_le_succ (ih (a + 1))
    | response s j body =>
      by_cases hok : s ∈ ok
      · simp [hok]
      · simp only [if_neg hok]
        by_cases hr : retryableStatus s = true
        · simp only [hr, if_true]
          exact Nat.succ_le_succ (ih (a + 1))
        · simp [hr]

lemma range_map_shift (b : ℚ) (a n : ℕ) :
    List.map (fun i => b * 2 ^ (a + 1 + i)) (List.range n) =
      List.map ((fun i => b * 2 ^ (a + i)) ∘ Nat.succ) (List.range n) :=
  List.map_congr_left (fun i _ => by
    have hx : a + 1 + i = a + (i + 1) := by omega
    simp [Function.comp, hx])

lemma http_loop_sleeps (oracle : ℕ → AttemptResult) (ok : List ℕ) (b : ℚ) :
    ∀ (fuel attempt : ℕ),
    (http_request_loop oracle ok b attempt fuel).sleeps =
      (List.range (http_request_loop oracle ok b attempt fuel).sleeps.length).map
        (fun i => b * 2 ^ (attempt + i)) := by
  intro fuel
  induction fuel with
  | zero => intro a; simp [http_request_loop]
  | succ n ih =>
    intro a
    simp only [http_request_loop]
    cases ho : oracle a with
    | netError =>
      by_cases hn : n = 0
      · simp [hn]
      · simp only [if_neg hn]
        show b * 2 ^ a :: (http_request_loop oracle ok b (a + 1) n).sleeps =
          (List.range
            ((b * 2 ^ a :: (http_request_loop oracle ok b (a + 1) n).sleeps).length)).map
            (fun i => b * 2 ^ (a + i))
        rw [List.length_cons, List.range_succ_eq_map, List.map_cons,
          List.map_map, ih (a + 1)]
        simp only [List.length_map, List.length_range, Nat.add_zero,
          range_map_shift]
    | response s j body =>
      by_cases hok : s ∈ ok
      · simp [hok]
      · simp only [if_neg hok]
        by_cases hr : retryableStatus s = true
        · simp only [hr, if_true]
          show b * 2 ^ a :: (http_request_loop oracle ok b (a + 1) n).sleeps =
            (List.range
              ((b * 2 ^ a :: (http_request_loop oracle ok b (a + 1) n).sleeps).length)).map
              (fun i => b * 2 ^ (a + i))
          rw [List.length_cons, List.range_succ_eq_map, List.map_cons,
            List.map_map, ih (a + 1)]
          simp only [List.length_map, List.length_range, Nat.add_zero,
            range_map_shift]
        · simp [hr]

lemma http_loop_all_retry (oracle : ℕ → AttemptResult) (ok : List ℕ)
    (b : ℚ) : ∀ (fuel attempt : ℕ),
    (∀ i, i < fuel → retryFail ok (oracle (attempt + i)) = true) →
    isTerminalFailure (http_request_loop oracle ok b attempt fuel).outcome =
      true := by
  intro fuel
  induction fuel with
  | zero => intro a _; simp [http_request_loop, isTerminalFailure]
  | succ n ih =>
    intro a h
    have h0 : retryFail ok (oracle a) = true := by
      simpa using h 0 (by omega)
    simp only [http_request_loop]
    cases ho : oracle a with
    | netError =>
      by_cases hn : n = 0
      · simp [hn, isTerminalFailure]
      · simp only [if_neg hn]
        exact ih (a + 1) (fun i hi => by
          have hx : a + 1 + i = a + (i + 1) := by omega
          rw [hx]
          exact h (i + 1) (by omega))
    | response s j body =>
      rw [ho] at h0
      simp only [retryFail, Bool.and_eq_true, Bool.not_eq_true',
        decide_eq_false_iff_not] at h0
      simp only [if_neg h0.1, h0.2, if_true]
      exact ih (a + 1) (fun i hi => by
        have hx : a + 1 + i = a + (i + 1) := by omega
        rw [hx]
        exact h (i + 1) (by omega))

lemma http_loop_nonretry (oracle : ℕ → AttemptResult) (ok : List ℕ)
    (b : ℚ) : ∀ (k fuel attempt s : ℕ) (j : Bool) (body : String),
    (∀ i, i < k → retryFail ok (oracle (attempt + i)) = true) →
    k < fuel →
    oracle (attempt + k) = .response s j body →
    s ∉ ok → retryableStatus s = false →
    (http_request_loop oracle ok b attempt fuel).outcome =
      .raisedHttpError s (respDetail j body) := by
  intro k
  induction k with
  | zero =>
    intro fuel a s j body _ hk ho hok hr
    obtain ⟨n, rfl⟩ : ∃ n, fuel = n + 1 := ⟨fuel - 1, by omega⟩
    rw [Nat.add_zero] at ho
    simp only [http_request_loop, ho, if_neg hok, hr, Bool.false_eq_true,
      if_false]
  | succ m ih =>
    intro fuel a s j body hpre hk ho hok hr
    obtain ⟨n, rfl⟩ : ∃ n, fuel = n + 1 := ⟨fuel - 1, by omega⟩
    have h0 : retryFail ok (oracle a) = true := by
      simpa using hpre 0 (by omega)
    have hshift : ∀ i, i < m → retryFail ok (oracle (a + 1 + i)) = true := by
      intro i hi
      have hx : a + 1 + i = a + (i + 1) := by omega
      rw [hx]
      exact hpre (i + 1) (by omega)
    have ho1 : oracle (a + 1 + m) = .response s j body := by
      have hx : a + 1 + m = a + (m + 1) := by omega
      rw [hx]
      exact ho
    have hn : m < n := by omega
    simp only [http_request_loop]
    cases ho0 : oracle a with
    | netError =>
      have hnz : n ≠ 0 := by omega
      simp only [if_neg hnz]
      exact ih n (a + 1) s j body hshift hn ho1 hok hr
    | response s0 j0 body0 =>
      rw [ho0] at h0
      simp only [retryFail, Bool.and_eq_true, Bool.not_eq_true',
        decide_eq_false_iff_not] at h0
      simp only [if_neg h0.1, h0.2, if_true]
      exact ih n (a + 1) s j body hshift hn ho1 hok hr

/-- C6: for every outbound call (defaults `retries = 5`,
`ok = (200,)`), `http_request` makes at most 5 attempts; every sleep
after a network-level failure or a 429/500/502/503/504 response is
`backoff * 2 ^ attempt` (so the sleeps form the sequence
`b, 2b, 4b, 8b, 16b` — `2, 4, 8, 16, 32` seconds for backoff 2.0);
any other non-success status, reached after only retryable failures,
is a terminal failure carrying the response body (or its text cut to
300 characters) as detail; and five retryable failures in a row are a
terminal failure, concretely five 500s give the exhausted error after
sleeping `b * 2 ^ 0 .. b * 2 ^ 4`. -/
theorem http_request_policy (oracle : ℕ → AttemptResult) (b : ℚ)
    (jj : Bool) (bb : String) :
    (http_request oracle 5 b [200]).attempts ≤ 5 ∧
    (http_request oracle 5 b [200]).sleeps =
      (List.range (http_request oracle 5 b [200]).sleeps.length).map
        (fun i => b * 2 ^ i) ∧
    (∀ k s : ℕ, ∀ j : Bool, ∀ body : String, k < 5 →
      (∀ i, i < k → retryFail [200] (oracle i) = true) →
      oracle k = .response s j body → s ∉ [200] →
      retryableStatus s = false →
      (http_request oracle 5 b [200]).outcome =
        .raisedHttpError s (respDetail j body)) ∧
    ((∀ i, i < 5 → retryFail [200] (oracle i) = true) →
      isTerminalFailure (http_request oracle 5 b [200]).outcome = true) ∧
    ((∀ i, i < 5 → oracle i = .response 500 jj bb) →
      http_request oracle 5 b [200] =
        ⟨.raisedExhausted,
         [b * 2 ^ 0, b * 2 ^ 1, b * 2 ^ 2, b * 2 ^ 3, b * 2 ^ 4], 5⟩) := by
  refine ⟨http_loop_attempts_le oracle [200] b 5 0, ?_, ?_, ?_, ?_⟩
  · have h := http_loop_sleeps oracle [200] b 5 0
    simpa using h
  · intro k s j body hk hpre ho hok hr
    exact http_loop_nonretry oracle [200] b k 5 0 s j body
      (by simpa using hpre) hk (by simpa using ho) hok hr
  · intro h
    exact http_loop_all_retry oracle [200] b 5 0 (by simpa using h)
  · intro h
    have h0 := h 0 (by norm_num)
    have h1 := h 1 (by norm_num)
    have h2 := h 2 (by norm_num)
    have h3 := h 3 (by norm_num)
    have h4 := h 4 (by norm_num)
    norm_num [http_request, http_request_loop, h0, h1, h2, h3, h4,
      retryableStatus]

/-- The always-500 transport oracle used by the C6 witness. -/
def orc500 : ℕ → AttemptResult := fun _ => .response 500 true "server error"

/-- Witness for C6: with backoff 2.0 and five straight 500s the call
sleeps 2, 4, 8, 16, 32 seconds, makes 5 attempts, and fails with the
exhausted-retries error. -/
theorem http_request_policy_witness :
    http_request orc500 5 2 [200] =
      ⟨.raisedExhausted, [2, 4, 8, 16, 32], 5⟩ := by
  have h := (http_request_policy orc500 2 true "server error").2.2.2.2
    (fun i _ => rfl)
  rw [h]
  norm_num
